import Mathlib

/-!
Verification of the Chrysalis voice-agent repository (cia-voice).

JavaScript strings are modelled as lists of characters (`JStr`), JSON-like
values as the inductive `JValue`, and the per-process `Map` of session data
as an association list.  Every definition is translated from the TypeScript
source under `src/`; definitions whose name ends in `Claim` are instead
modelled from the specification text, for comparison against the source.
-/

set_option linter.unusedVariables false

/-- A JavaScript string, modelled as its list of characters. -/
abbrev JStr := List Char

/-- The whitespace class used by JavaScript `\s`, `trim()` and friends
(the ASCII whitespace characters plus the common Unicode space characters
that can realistically appear in this code's inputs). -/
def isJSWhitespace (c : Char) : Bool :=
  c = ' ' || c = '\t' || c = '\n' || c = '\r' ||
  c = '\u000B' || c = '\u000C' || c = ' ' || c = '﻿'

/-- JavaScript `String.prototype.trim`: strip leading and trailing whitespace. -/
def trimJS (s : JStr) : JStr :=
  ((s.dropWhile isJSWhitespace).reverse.dropWhile isJSWhitespace).reverse

/-- Prepend a character onto the first chunk of a chunk list. -/
def consHead (c : Char) : List JStr → List JStr
  | [] => [[c]]
  | w :: ws => (c :: w) :: ws

/-- JavaScript `String.prototype.split` with a single-character separator:
`"".split(c) = [""]`, and every separator occurrence starts a new chunk. -/
def splitChar (sep : Char) : JStr → List JStr
  | [] => [[]]
  | c :: rest =>
    if c = sep then [] :: splitChar sep rest
    else consHead c (splitChar sep rest)

-- ============================================================================
-- src/utils/phoneValidation.ts
-- ============================================================================

/-- The character class of the source's `validCharsPattern`
regex `[\d\s\-().+]` : digits, whitespace, dash, parens, dot, plus. -/
def phoneChar (c : Char) : Bool :=
  c.isDigit || isJSWhitespace c || c = '-' || c = '(' || c = ')' || c = '.' || c = '+'

/-- The test `^[\d\s\-().+]+$` : non-empty and all characters in the class. -/
def validCharsTest (s : JStr) : Bool :=
  (!s.isEmpty) && s.all phoneChar

/-- Result record of `validatePhone` (src/utils/phoneValidation.ts). -/
structure PhoneValidationResult where
  isValid : Bool
  normalized : Option JStr
  digits : JStr
  error : Option JStr
deriving DecidableEq, Repr

/-- `validatePhone` from src/utils/phoneValidation.ts lines 17-81. -/
def validatePhone (phone : JStr) : PhoneValidationResult :=
  if phone.isEmpty || (trimJS phone).isEmpty then
    ⟨false, none, [], some "Phone number is required".toList⟩
  else
    let digits := phone.filter Char.isDigit
    if !(validCharsTest (trimJS phone)) then
      ⟨false, none, digits, some "Phone number contains invalid characters".toList⟩
    else if digits.length < 10 then
      ⟨false, none, digits,
        some (("Phone number is too short. Expected at least 10 digits, got ".toList)
          ++ (toString digits.length).toList)⟩
    else if digits.length > 15 then
      ⟨false, none, digits,
        some (("Phone number is too long. Expected at most 15 digits, got ".toList)
          ++ (toString digits.length).toList)⟩
    else if digits.length = 10 then
      ⟨true, some ('+' :: '1' :: digits), digits, none⟩
    else if digits.length = 11 ∧ digits.head? = some '1' then
      ⟨true, some ('+' :: digits), digits, none⟩
    else
      ⟨true, some ('+' :: digits), digits, none⟩

-- ============================================================================
-- src/utils/phoneValidation.ts (piiMask part, lines 126-380)
-- ============================================================================

/-- `PII_FIELDS` set from the source (field names needing masking). -/
def PII_FIELDS : List JStr :=
  ["phonenumber", "phone", "email", "ssn", "dob", "dateofbirth",
   "address", "street"].map String.toList

/-- `NAME_FIELDS` set from the source (name fields shown as initials). -/
def NAME_FIELDS : List JStr :=
  ["callername", "fullname", "firstname", "lastname", "name"].map String.toList

/-- `maskPhone` from the source, lines 154-178.  `slice(-showLast)` is
`drop (length - showLast)`; `startsWith` is a `head?` check. -/
def maskPhone (phone : JStr) (showLast : Nat := 4) : JStr :=
  if phone.isEmpty then phone
  else
    let digits := phone.filter Char.isDigit
    if digits.length ≤ showLast then phone
    else
      let maskedPart := List.replicate (digits.length - showLast) '*'
      let visiblePart := digits.drop (digits.length - showLast)
      if digits.length = 10 then "(***) ***-".toList ++ visiblePart
      else if digits.length = 11 ∧ digits.head? = some '1' then
        "+1 (***) ***-".toList ++ visiblePart
      else maskedPart ++ visiblePart

/-- `maskEmail` from the source, lines 185-196.  The destructuring
`const [localPart, domain] = email.split('@')` takes the first two chunks. -/
def maskEmail (email : JStr) : JStr :=
  if email.isEmpty || !(email.contains '@') then email
  else
    match splitChar '@' email with
    | localPart :: domain :: _ =>
      if localPart.length ≤ 1 then '*' :: '@' :: domain
      else localPart.take 1 ++ List.replicate (localPart.length - 1) '*' ++ '@' :: domain
    | _ => email

/-- One run-free chunk split of `split(/\s+/)` applied to a trimmed string:
split on whitespace and drop the empty chunks (the regex collapses runs,
and a trimmed string yields no leading/trailing empties). -/
def splitWsRuns (s : JStr) : List JStr :=
  (List.splitOnP (fun c => isJSWhitespace c) s).filter (fun w => !w.isEmpty)

/-- `maskName` from the source, lines 203-216. -/
def maskName (name : JStr) : JStr :=
  if name.isEmpty then name
  else
    let trimmed := trimJS name
    if trimmed.length = 0 then name
    else
      List.intercalate [' ']
        ((splitWsRuns trimmed).map
          (fun word => if word.length > 0 then word.take 1 ++ ['.'] else []))

/-- Backward parser for the source's address regex
`/,?\s*([A-Z]{2})\s*(\d{5}(?:-\d{4})?)\s*$/i` applied to the reversed
string: trailing whitespace, then the zip (5 digits optionally followed -
in forward order - by dash + 4 digits), whitespace, and the two-letter
state.  The unanchored leading `,?\s*` matches the empty string and so
imposes no constraint.  Returns (state, zip) in forward order. -/
def parseStateZipEnd (rev : JStr) : Option (JStr × JStr) :=
  let r1 := rev.dropWhile isJSWhitespace
  let zipSplit : Option (JStr × JStr) :=
    if r1.length ≥ 10 ∧ (r1.take 4).all Char.isDigit ∧ r1.get? 4 = some '-'
        ∧ ((r1.drop 5).take 5).all Char.isDigit then
      some (r1.take 10, r1.drop 10)
    else if r1.length ≥ 5 ∧ (r1.take 5).all Char.isDigit then
      some (r1.take 5, r1.drop 5)
    else none
  match zipSplit with
  | none => none
  | some (zipRev, rest) =>
    match rest.dropWhile isJSWhitespace with
    | a :: b :: _ =>
      if a.isAlpha ∧ b.isAlpha then some ([b, a], zipRev.reverse) else none
    | _ => none

/-- `maskAddress` from the source, lines 223-236. -/
def maskAddress (address : JStr) : JStr :=
  if address.isEmpty then address
  else
    match parseStateZipEnd address.reverse with
    | some (state, zip) =>
      "[REDACTED], ".toList ++ state.map Char.toUpper ++ [' '] ++ zip
    | none => "[REDACTED ADDRESS]".toList

/-- `maskSSN` from the source, lines 243-254. -/
def maskSSN (ssn : JStr) : JStr :=
  if ssn.isEmpty then ssn
  else
    let digits := ssn.filter Char.isDigit
    if digits.length < 4 then "***-**-****".toList
    else "***-**-".toList ++ digits.drop (digits.length - 4)

/-- Word characters for the JavaScript `\b` boundary: `[A-Za-z0-9_]`. -/
def isWordChar (c : Char) : Bool := c.isAlphanum || c = '_'

/-- Leftmost match of `/\b(19|20)\d{2}\b/` : scan for the first position
with a non-word (or absent) character before, `19` or `20`, two more
digits, and a non-word (or absent) character after. -/
def findYear (prev : Option Char) : JStr → Option JStr
  | a :: b :: c :: d :: rest =>
    if (prev.all (fun p => !(isWordChar p)))
        && (decide (a = '1' ∧ b = '9') || decide (a = '2' ∧ b = '0'))
        && c.isDigit && d.isDigit
        && (match rest with | [] => true | e :: _ => !(isWordChar e)) then
      some [a, b, c, d]
    else findYear (some a) (b :: c :: d :: rest)
  | _ => none

/-- `maskDOB` from the source, lines 261-273. -/
def maskDOB (dob : JStr) : JStr :=
  if dob.isEmpty then dob
  else
    match findYear none dob with
    | some year => "**/**/".toList ++ year
    | none => "[REDACTED DOB]".toList

/-- Field-name normalization used by `isPIIField` / `isNameField` /
`maskPIIValue`: `toLowerCase().replace(/[_-]/g, '')`. -/
def normalizeField (fieldName : JStr) : JStr :=
  (fieldName.map Char.toLower).filter (fun c => !(c = '_' || c = '-'))

/-- `isPIIField` from the source, lines 280-283. -/
def isPIIField (fieldName : JStr) : Bool :=
  PII_FIELDS.contains (normalizeField fieldName)

/-- `isNameField` from the source, lines 290-293. -/
def isNameField (fieldName : JStr) : Bool :=
  NAME_FIELDS.contains (normalizeField fieldName)

/-- `maskPIIValue` from the source, lines 301-326. -/
def maskPIIValue (fieldName : JStr) (value : JStr) : JStr :=
  let normalized := normalizeField fieldName
  if normalized = "email".toList then maskEmail value
  else if normalized = "phonenumber".toList ∨ normalized = "phone".toList then
    maskPhone value
  else if normalized = "ssn".toList then maskSSN value
  else if normalized = "dob".toList ∨ normalized = "dateofbirth".toList then
    maskDOB value
  else if normalized = "address".toList ∨ normalized = "street".toList then
    maskAddress value
  else "[REDACTED]".toList

/-- A JavaScript value as seen by `maskPII`: null, undefined, a primitive,
an array, or a plain object (an ordered list of key/value entries, as
produced by `Object.entries`). -/
inductive JValue where
  | null : JValue
  | undef : JValue
  | num : Int → JValue
  | bool : Bool → JValue
  | str : JStr → JValue
  | arr : List JValue → JValue
  | obj : List (JStr × JValue) → JValue

mutual

/-- `maskPII` from the source, lines 333-370: recursively masks PII fields. -/
def maskPII : JValue → JValue
  | .null => .null
  | .undef => .undef
  | .num n => .num n
  | .bool b => .bool b
  | .str s => .str s
  | .arr items => .arr (maskPIIList items)
  | .obj fields => .obj (maskPIIFields fields)

/-- The `obj.map((item) => maskPII(item))` loop of `maskPII` on arrays. -/
def maskPIIList : List JValue → List JValue
  | [] => []
  | v :: rest => maskPII v :: maskPIIList rest

/-- The `Object.entries` loop of `maskPII` on objects. -/
def maskPIIFields : List (JStr × JValue) → List (JStr × JValue)
  | [] => []
  | (key, value) :: rest => (key, maskPIIEntry key value) :: maskPIIFields rest

/-- The body of the `Object.entries` loop: null/undefined pass through,
strings get field-driven masking, nested objects and arrays (JavaScript
`typeof value === 'object'`) recurse, all other primitives pass through. -/
def maskPIIEntry (key : JStr) : JValue → JValue
  | .null => .null
  | .undef => .undef
  | .str s =>
    if isNameField key then .str (maskName s)
    else if isPIIField key then .str (maskPIIValue key s)
    else .str s
  | .arr items => .arr (maskPIIList items)
  | .obj fields => .obj (maskPIIFields fields)
  | .num n => .num n
  | .bool b => .bool b

end

mutual

/-- Boolean equality on `JValue` (for deciding concrete equalities). -/
def JValue.beq : JValue → JValue → Bool
  | .null, .null => true
  | .undef, .undef => true
  | .num a, .num b => a == b
  | .bool a, .bool b => a == b
  | .str a, .str b => a == b
  | .arr a, .arr b => JValue.beqList a b
  | .obj a, .obj b => JValue.beqFields a b
  | _, _ => false

/-- Elementwise `JValue.beq` on lists. -/
def JValue.beqList : List JValue → List JValue → Bool
  | [], [] => true
  | a :: la, b :: lb => JValue.beq a b && JValue.beqList la lb
  | _, _ => false

/-- Elementwise `JValue.beq` on object entry lists. -/
def JValue.beqFields : List (JStr × JValue) → List (JStr × JValue) → Bool
  | [], [] => true
  | (k, v) :: la, (l, w) :: lb =>
    k == l && JValue.beq v w && JValue.beqFields la lb
  | _, _ => false

end

/-- Structural induction principle for the nested inductive `JValue`. -/
def JValue.inductionOn (P : JValue → Prop)
    (hnull : P .null) (hundef : P .undef)
    (hnum : ∀ n, P (.num n)) (hbool : ∀ b, P (.bool b))
    (hstr : ∀ s, P (.str s))
    (harr : ∀ items, (∀ x ∈ items, P x) → P (.arr items))
    (hobj : ∀ fields, (∀ p ∈ fields, P p.2) → P (.obj fields)) :
    ∀ v, P v
  | .null => hnull
  | .undef => hundef
  | .num n => hnum n
  | .bool b => hbool b
  | .str s => hstr s
  | .arr items =>
    harr items (fun x hx =>
      JValue.inductionOn P hnull hundef hnum hbool hstr harr hobj x)
  | .obj fields =>
    hobj fields (fun p hp =>
      JValue.inductionOn P hnull hundef hnum hbool hstr harr hobj p.2)
termination_by v => sizeOf v
decreasing_by
  · have h1 : sizeOf x < sizeOf items := List.sizeOf_lt_of_mem hx
    simp only [JValue.arr.sizeOf_spec]
    omega
  · have h1 : sizeOf p < sizeOf fields := List.sizeOf_lt_of_mem hp
    have h2 : sizeOf p.2 < sizeOf p := by
      obtain ⟨k, v⟩ := p
      simp only [Prod.mk.sizeOf_spec]
      omega
    simp only [JValue.obj.sizeOf_spec]
    omega

/-- `JValue.beqList` decides list equality, elementwise. -/
theorem JValue.beqList_iff (items l : List JValue)
    (ih : ∀ x ∈ items, ∀ b, JValue.beq x b = true ↔ x = b) :
    JValue.beqList items l = true ↔ items = l := by
  induction items generalizing l with
  | nil => cases l <;> simp [JValue.beqList]
  | cons a la tail_ih =>
    cases l with
    | nil => simp [JValue.beqList]
    | cons b lb =>
      simp only [JValue.beqList, Bool.and_eq_true, List.cons.injEq]
      rw [ih a (by simp) b, tail_ih lb (fun x hx => ih x (by simp [hx]))]

/-- `JValue.beqFields` decides entry-list equality, elementwise. -/
theorem JValue.beqFields_iff (fs gs : List (JStr × JValue))
    (ih : ∀ p ∈ fs, ∀ b, JValue.beq p.2 b = true ↔ p.2 = b) :
    JValue.beqFields fs gs = true ↔ fs = gs := by
  induction fs generalizing gs with
  | nil => cases gs <;> simp [JValue.beqFields]
  | cons a la tail_ih =>
    obtain ⟨k, v⟩ := a
    cases gs with
    | nil => simp [JValue.beqFields]
    | cons b lb =>
      obtain ⟨l, w⟩ := b
      simp only [JValue.beqFields, Bool.and_eq_true, List.cons.injEq,
        Prod.mk.injEq, beq_iff_eq]
      rw [ih ⟨k, v⟩ (by simp) w, tail_ih lb (fun x hx => ih x (by simp [hx]))]

/-- `JValue.beq` decides equality of JavaScript values. -/
theorem JValue.beq_iff (a b : JValue) : JValue.beq a b = true ↔ a = b := by
  induction a using JValue.inductionOn generalizing b with
  | hnull => cases b <;> simp [JValue.beq]
  | hundef => cases b <;> simp [JValue.beq]
  | hnum n => cases b <;> simp [JValue.beq]
  | hbool x => cases b <;> simp [JValue.beq]
  | hstr s => cases b <;> simp [JValue.beq]
  | harr items ih =>
    cases b <;> simp only [JValue.beq, Bool.false_eq_true, false_iff] <;>
      try exact fun h => JValue.noConfusion h
    case arr l => rw [JValue.beqList_iff items l ih]; simp
  | hobj fields ih =>
    cases b <;> simp only [JValue.beq, Bool.false_eq_true, false_iff] <;>
      try exact fun h => JValue.noConfusion h
    case obj l => rw [JValue.beqFields_iff fields l ih]; simp

instance : DecidableEq JValue :=
  fun a b => decidable_of_iff (JValue.beq a b = true) (JValue.beq_iff a b)

-- ============================================================================
-- src/utils/officeHours.ts
-- ============================================================================

/-- Result record of `checkOfficeHours` (src/utils/officeHours.ts). -/
structure OfficeHoursResult where
  isOpen : Bool
  currentTime : String
  currentDay : String
  nextBusinessDay : String
  message : String
deriving DecidableEq, Repr

/-- `checkOfficeHours` from src/utils/officeHours.ts lines 20-56 (the same
logic is inlined in the `checkOfficeHours` tool, src/agent.ts lines 599-649).
The conversion of the instant to Pacific civil time is delegated to the
JavaScript `Date`/`Intl` machinery; this embedding takes the resulting local
day-of-week (`getDay()`: 0 = Sunday .. 6 = Saturday), local hour
(`getHours()`: 0..23) and the formatted time/day strings as inputs. -/
def checkOfficeHours (day hour : Nat) (timeString dayName : String) :
    OfficeHoursResult :=
  let isWeekday : Bool := decide (1 ≤ day) && decide (day ≤ 5)
  let isBusinessHours : Bool := decide (9 ≤ hour) && decide (hour < 17)
  let isOpen := isWeekday && isBusinessHours
  let nb0 := "tomorrow"
  let nb1 := if day = 5 ∧ 17 ≤ hour then "Monday" else nb0
  let nb2 := if day = 6 then "Monday" else nb1
  let nextBusinessDay := if day = 0 then "Monday" else nb2
  { isOpen := isOpen
    currentTime := timeString
    currentDay := dayName
    nextBusinessDay := nextBusinessDay
    message :=
      if isOpen then
        "The office is currently open. It's " ++ timeString ++ " on "
          ++ dayName ++ " Pacific Time."
      else
        "The office is currently closed. It's " ++ timeString ++ " on "
          ++ dayName
          ++ " Pacific Time. Office hours are Monday through Friday, 9 AM to"
          ++ " 5 PM Pacific Time. Agents will be back at 8 AM on "
          ++ nextBusinessDay ++ "." }

-- ============================================================================
-- src/ezlynx/config.ts and src/ezlynx/types.ts
-- ============================================================================

/-- `EZLynxConfig` from src/ezlynx/config.ts. -/
structure EZLynxConfig where
  webhookUrl : String
  apiKey : Option String
  timeoutMs : Int
  enabled : Bool
  useMockData : Bool
deriving DecidableEq, Repr

/-- Customer address record from src/ezlynx/types.ts. -/
structure CustomerAddress where
  street : Option String := none
  city : Option String := none
  state : Option String := none
  zipCode : Option String := none
deriving DecidableEq, Repr

/-- `EZLynxPolicy` from src/ezlynx/types.ts. -/
structure EZLynxPolicy where
  policyNumber : String
  policyType : String
  carrier : String
  effectiveDate : String
  expirationDate : String
  status : String
  premium : Option Nat := none
  premiumFrequency : Option String := none
deriving DecidableEq, Repr

/-- `EZLynxCustomerRecord` from src/ezlynx/types.ts. -/
structure EZLynxCustomerRecord where
  found : Bool
  customerId : Option String := none
  fullName : Option String := none
  firstName : Option String := none
  lastName : Option String := none
  email : Option String := none
  phone : Option String := none
  address : Option CustomerAddress := none
  policies : Option (List EZLynxPolicy) := none
  preferredAgent : Option String := none
  notes : Option String := none
  isPriority : Option Bool := none
deriving DecidableEq, Repr

/-- `EZLynxLookupRequest` from src/ezlynx/types.ts.  The phone number, the
only field whose characters the service inspects, is a `JStr`. -/
structure EZLynxLookupRequest where
  phoneNumber : JStr
  callerName : Option JStr := none
  address : Option String := none
  zipCode : Option String := none
  timestamp : String
  sessionId : String
deriving DecidableEq, Repr

/-- `EZLynxWebhookResponse` from src/ezlynx/types.ts. -/
structure EZLynxWebhookResponse where
  success : Bool
  error : Option String := none
  errorCode : Option String := none
  data : Option EZLynxCustomerRecord := none
  responseTimestamp : String
  correlationId : String
deriving DecidableEq, Repr

-- ============================================================================
-- src/ezlynx/service.ts
-- ============================================================================

/-- `EZLynxService.isEnabled` (src/ezlynx/service.ts lines 27-29):
`config.enabled && !!config.webhookUrl` (an empty string is falsy). -/
def isEnabled (config : EZLynxConfig) : Bool :=
  config.enabled && !(config.webhookUrl == "")

/-- `createPlaceholderResponse` (src/ezlynx/service.ts lines 93-106). -/
def createPlaceholderResponse (correlationId now : String) :
    EZLynxWebhookResponse :=
  { success := true
    data := some { found := false }
    responseTimestamp := now
    correlationId := correlationId }

/-- The mock fixture customer of `createMockResponse`
(src/ezlynx/service.ts lines 116-156), keyed by `"+17145551234"`. -/
def mockCustomer : EZLynxCustomerRecord :=
  { found := true
    customerId := some "MOCK-001"
    fullName := some "John Smith"
    firstName := some "John"
    lastName := some "Smith"
    email := some "john.smith@example.com"
    phone := some "+17145551234"
    address := some { street := some "123 Main St", city := some "Costa Mesa",
                      state := some "CA", zipCode := some "92626" }
    policies := some
      [ { policyNumber := "AUTO-123456", policyType := "auto",
          carrier := "Progressive", effectiveDate := "2024-01-01",
          expirationDate := "2025-01-01", status := "active",
          premium := some 150, premiumFrequency := some "monthly" },
        { policyNumber := "HOME-789012", policyType := "home",
          carrier := "State Farm", effectiveDate := "2024-03-15",
          expirationDate := "2025-03-15", status := "active",
          premium := some 1200, premiumFrequency := some "annual" } ]
    preferredAgent := some "Cherry"
    isPriority := some false }

/-- The phone normalization inlined in `createMockResponse`
(src/ezlynx/service.ts lines 158-163, and again for the key at 164-171):
strip non-digits, then strip the country code from an 11-digit number
starting with `1`. -/
def normalizeMockPhone (phone : JStr) : JStr :=
  let digits := phone.filter Char.isDigit
  if digits.length = 11 ∧ digits.head? = some '1' then digits.tail else digits

/-- `createMockResponse` (src/ezlynx/service.ts lines 111-188): the single
fixture key `"+17145551234"` is normalized the same way as the request
phone and compared. -/
def createMockResponse (request : EZLynxLookupRequest)
    (correlationId now : String) : EZLynxWebhookResponse :=
  let normalizedPhone := normalizeMockPhone request.phoneNumber
  let keyDigits := normalizeMockPhone "+17145551234".toList
  if keyDigits = normalizedPhone then
    { success := true
      data := some mockCustomer
      responseTimestamp := now
      correlationId := correlationId }
  else
    { success := true
      data := some { found := false }
      responseTimestamp := now
      correlationId := correlationId }

/-- `EZLynxService.lookupCustomer` (src/ezlynx/service.ts lines 34-88).
The correlation id (built from `Date.now()` and `Math.random()`) and the
response timestamp are inputs of the embedding.  The real-webhook branch is
an explicit placeholder in the source: it only logs and returns
`createPlaceholderResponse`; nothing in the `try` block can throw, so the
`catch` branch (success=false, SERVER_ERROR) is dead code. -/
def lookupCustomer (config : EZLynxConfig) (request : EZLynxLookupRequest)
    (correlationId now : String) : EZLynxWebhookResponse :=
  if !(isEnabled config) then createPlaceholderResponse correlationId now
  else if config.useMockData then createMockResponse request correlationId now
  else createPlaceholderResponse correlationId now

-- ============================================================================
-- src/agent.ts : session-scoped state
-- ============================================================================

/-- `Urgency` values of src/agent.ts call records. -/
inductive Urgency where
  | low : Urgency
  | medium : Urgency
  | high : Urgency
deriving DecidableEq, Repr

/-- `CallNote` from src/agent.ts lines 283-295. -/
structure CallNote where
  timestamp : String
  callerName : String
  phoneNumber : String
  email : Option String
  reason : String
  insuranceType : Option String
  details : String
  urgency : Urgency
  requestedAgent : Option String
  isExistingClient : Bool
  ezlynxCustomerId : Option String := none
deriving DecidableEq, Repr

/-- `QuoteRequest` from src/agent.ts lines 297-312. -/
structure QuoteRequest where
  timestamp : String
  callerName : String
  phoneNumber : String
  email : Option String := none
  insuranceTypes : List String
  vehicleInfo : Option String := none
  address : Option String := none
  driverCount : Option Nat := none
  ownsHome : Option Bool := none
  preferredChannel : String
  bundleInterest : Bool
  callbackPreferred : Bool
  callbackTime : Option String := none
  notes : Option String := none
deriving DecidableEq, Repr

/-- `MessageRequest` from src/agent.ts lines 314-323. -/
structure MessageRequest where
  timestamp : String
  callerName : String
  phoneNumber : String
  forAgent : Option String := none
  message : String
  urgency : Urgency
  preferredCallbackTime : Option String := none
  reason : String
deriving DecidableEq, Repr

/-- The `collectedInfo` part of `CustomerContext` (src/ezlynx/types.ts).
The phone number stored here is the normalized output of `validatePhone`,
hence a `JStr`. -/
structure CollectedInfo where
  phoneNumber : Option JStr := none
  name : Option JStr := none
  address : Option String := none
  zipCode : Option String := none
deriving DecidableEq, Repr

/-- `CustomerContext` from src/ezlynx/types.ts. -/
structure CustomerContext where
  lookupAttempted : Bool
  lookupSuccessful : Bool
  customer : Option EZLynxCustomerRecord := none
  lookupTimestamp : Option String := none
  collectedInfo : CollectedInfo
deriving DecidableEq, Repr

/-- `SessionData` from src/agent.ts lines 331-336. -/
structure SessionData where
  callNotes : List CallNote
  quoteRequests : List QuoteRequest
  messageRequests : List MessageRequest
  customerContext : CustomerContext
deriving DecidableEq, Repr

/-- The `Map<string, SessionData>` of `ProcUserData`, modelled as an
association list with the observational behavior of a JavaScript `Map`. -/
abbrev SessionMap := List (String × SessionData)

/-- `Map.get` (`undefined` = `none`). -/
def mapGet (key : String) : SessionMap → Option SessionData
  | [] => none
  | (k, v) :: rest => if k = key then some v else mapGet key rest

/-- `Map.set`: replace the first entry with this key in place, else append.
On maps with unique keys (the only ones a JavaScript `Map` produces) this
is exactly `Map.set`. -/
def mapSet (key : String) (value : SessionData) : SessionMap → SessionMap
  | [] => [(key, value)]
  | (k, v) :: rest =>
    if k = key then (key, value) :: rest else (k, v) :: mapSet key value rest

/-- `Map.delete`: remove the entries with this key.  On maps with unique
keys this is exactly `Map.delete`. -/
def mapDelete (key : String) : SessionMap → SessionMap
  | [] => []
  | (k, v) :: rest =>
    if k = key then mapDelete key rest else (k, v) :: mapDelete key rest

/-- The freshly-initialized session of `getSessionData`
(src/agent.ts lines 351-361). -/
def freshSessionData : SessionData :=
  { callNotes := []
    quoteRequests := []
    messageRequests := []
    customerContext :=
      { lookupAttempted := false
        lookupSuccessful := false
        collectedInfo := {} } }

/-- `getSessionData` from src/agent.ts lines 347-365: initialize the entry
if absent, then return it.  The returned pair is (entry, updated map). -/
def getSessionData (roomName : String) (sessions : SessionMap) :
    SessionData × SessionMap :=
  match mapGet roomName sessions with
  | some s => (s, sessions)
  | none => (freshSessionData, mapSet roomName freshSessionData sessions)

/-- `cleanupSessionData` from src/agent.ts lines 371-385: log a summary
(irrelevant here) and delete the entry. -/
def cleanupSessionData (roomName : String) (sessions : SessionMap) :
    SessionMap :=
  mapDelete roomName sessions

-- ============================================================================
-- src/agent.ts : formatPoliciesForVoice and the lookupCustomer tool
-- ============================================================================

/-- JavaScript template interpolation of a possibly-undefined string. -/
def optStr (o : Option String) : String := o.getD "undefined"

/-- `formatPoliciesForVoice` from src/agent.ts lines 390-405. -/
def formatPoliciesForVoice (customer : EZLynxCustomerRecord) : String :=
  match customer.policies with
  | none => "No active policies found in the system."
  | some [] => "No active policies found in the system."
  | some policies =>
    let policyDescriptions := policies.map (fun policy =>
      let status := if policy.status = "active" then "active" else policy.status
      policy.policyType ++ " insurance with " ++ policy.carrier
        ++ ", policy number " ++ policy.policyNumber ++ ", status " ++ status)
    if policyDescriptions.length = 1 then
      "I found one policy: " ++ (policyDescriptions.headD "") ++ "."
    else
      "I found " ++ toString policyDescriptions.length ++ " policies: "
        ++ String.intercalate "; " policyDescriptions ++ "."

/-- Result object of the `lookupCustomer` tool (src/agent.ts lines 431-514).
Fields that a given return statement omits are `none`. -/
structure LookupToolResult where
  found : Bool
  error : Option JStr := none
  message : Option String := none
  customerName : Option String := none
  firstName : Option String := none
  preferredAgent : Option String := none
  isPriority : Option Bool := none
  policyCount : Option Nat := none
  policySummary : Option String := none
deriving DecidableEq, Repr

/-- The caller-facing re-ask message of the invalid-phone branch. -/
def reAskMessage : String :=
  "I couldn't validate that phone number. Could you repeat it for me?"

/-- The `lookupCustomer` tool's `execute` (src/agent.ts lines 431-514).
`getSession()` is `getSessionData roomName`; the EZLynx service singleton
is represented by its configuration; `new Date().toISOString()` and the
correlation id are the `now`/`correlationId` inputs.  JavaScript mutations
of the (shared) session object are modelled by writing the updated session
back into the map at each mutation point.  Neither the service call nor
anything else in the body can throw, so both `catch` branches are dead. -/
def executeLookupCustomer (config : EZLynxConfig) (roomName : String)
    (phoneNumber : JStr) (callerName : Option JStr) (now correlationId : String)
    (sessions : SessionMap) : LookupToolResult × SessionMap :=
  let (session, m1) := getSessionData roomName sessions
  let phoneResult := validatePhone phoneNumber
  if !phoneResult.isValid then
    ({ found := false, error := phoneResult.error,
       message := some reAskMessage }, m1)
  else
    let normalizedPhone := phoneResult.normalized.getD []
    let session1 : SessionData :=
      { session with customerContext :=
        { session.customerContext with
          lookupAttempted := true
          collectedInfo :=
            { session.customerContext.collectedInfo with
              phoneNumber := some normalizedPhone
              name := match callerName with
                      | some n => some n
                      | none => session.customerContext.collectedInfo.name } } }
    let m2 := mapSet roomName session1 m1
    if !(isEnabled config) then
      ({ found := false,
         message := some ("Customer lookup is not currently available. "
           ++ "Please proceed with collecting their information.") }, m2)
    else
      let response := lookupCustomer config
        { phoneNumber := normalizedPhone, callerName := callerName,
          timestamp := now, sessionId := roomName } correlationId now
      match response.data with
      | some customer =>
        if response.success ∧ customer.found then
          let session2 : SessionData :=
            { session1 with customerContext :=
              { session1.customerContext with
                lookupSuccessful := true
                customer := some customer
                lookupTimestamp := some now } }
          let m3 := mapSet roomName session2 m2
          let policyInfo := formatPoliciesForVoice customer
          ({ found := true
             customerName := customer.fullName
             firstName := customer.firstName
             preferredAgent := customer.preferredAgent
             isPriority := customer.isPriority
             policyCount := some ((customer.policies.getD []).length)
             policySummary := some policyInfo
             message := some ("Found existing customer: "
               ++ optStr customer.fullName ++ ". " ++ policyInfo) }, m3)
        else
          let session2 : SessionData :=
            { session1 with customerContext :=
              { session1.customerContext with lookupSuccessful := false } }
          ({ found := false,
             message := some ("No existing customer record found. "
               ++ "This appears to be a new caller.") },
           mapSet roomName session2 m2)
      | none =>
        let session2 : SessionData :=
          { session1 with customerContext :=
            { session1.customerContext with lookupSuccessful := false } }
        ({ found := false,
           message := some ("No existing customer record found. "
             ++ "This appears to be a new caller.") },
         mapSet roomName session2 m2)

-- ============================================================================
-- Claim-modelled definitions and sample data
-- ============================================================================

/-- A sample populated session used in concrete witnesses. -/
def demoSession : SessionData :=
  { freshSessionData with
    callNotes := [{ timestamp := "2026-01-07T10:00:00Z", callerName := "Pat Doe",
                    phoneNumber := "(714) 464-8080", email := none,
                    reason := "claim", insuranceType := some "auto",
                    details := "rear-ended on the 405", urgency := .high,
                    requestedAgent := none, isExistingClient := false }] }

/-- Modelled from the claim (C4 wording): 10 digits formats as a US number,
11 starting with 1 as `+1 ...`, fewer digits than showLast (4) returns the
original unchanged, otherwise stars plus the last 4 digits. -/
def maskPhoneClaim (s : JStr) : JStr :=
  let d := s.filter Char.isDigit
  if d.length = 10 then "(***) ***-".toList ++ d.drop (d.length - 4)
  else if d.length = 11 ∧ d.head? = some '1' then
    "+1 (***) ***-".toList ++ d.drop (d.length - 4)
  else if d.length < 4 then s
  else List.replicate (d.length - 4) '*' ++ d.drop (d.length - 4)

/-- The amended claim rule: the source returns the original unchanged
already when the digit count is `≤` showLast, not only `<` showLast. -/
def maskPhoneClaimAmended (s : JStr) : JStr :=
  let d := s.filter Char.isDigit
  if d.length = 10 then "(***) ***-".toList ++ d.drop (d.length - 4)
  else if d.length = 11 ∧ d.head? = some '1' then
    "+1 (***) ***-".toList ++ d.drop (d.length - 4)
  else if d.length ≤ 4 then s
  else List.replicate (d.length - 4) '*' ++ d.drop (d.length - 4)

mutual

/-- Modelled from the claim: output/input pairs have the same shape and may
differ only at string leaves under a recognized name/PII field name. -/
def claimOK : JValue → JValue → Bool
  | .null, .null => true
  | .undef, .undef => true
  | .num a, .num b => a == b
  | .bool a, .bool b => a == b
  | .str a, .str b => a == b
  | .arr xs, .arr ys => claimOKList xs ys
  | .obj fs, .obj gs => claimOKFields fs gs
  | _, _ => false

/-- Arrays: same length and elementwise `claimOK`. -/
def claimOKList : List JValue → List JValue → Bool
  | [], [] => true
  | x :: xs, y :: ys => claimOK x y && claimOKList xs ys
  | _, _ => false

/-- Objects: identical key sequence and entrywise `claimOKEntry`. -/
def claimOKFields : List (JStr × JValue) → List (JStr × JValue) → Bool
  | [], [] => true
  | (k, v) :: fs, (l, w) :: gs =>
    k == l && claimOKEntry k v w && claimOKFields fs gs
  | _, _ => false

/-- An entry under a recognized field name may change if it is a string;
everything else must agree (recursively for arrays/objects). -/
def claimOKEntry (key : JStr) : JValue → JValue → Bool
  | .str a, .str b =>
    if isNameField key || isPIIField key then true else a == b
  | .null, .null => true
  | .undef, .undef => true
  | .num a, .num b => a == b
  | .bool a, .bool b => a == b
  | .arr xs, .arr ys => claimOKList xs ys
  | .obj fs, .obj gs => claimOKFields fs gs
  | _, _ => false

end

-- ============================================================================
-- Map lemmas
-- ============================================================================

/-- Deleting key `A` leaves every other key's entry unchanged. -/
theorem mapGet_mapDelete_ne (A B : String) (m : SessionMap) (h : B ≠ A) :
    mapGet B (mapDelete A m) = mapGet B m := by
  induction m with
  | nil => rfl
  | cons p rest ih =>
    obtain ⟨k, v⟩ := p
    simp only [mapDelete, mapGet]
    by_cases hk : k = A
    · rw [if_pos hk, ih, if_neg (fun hb : k = B => h (hb ▸ hk))]
    · rw [if_neg hk]
      simp only [mapGet]
      by_cases hb : k = B
      · rw [if_pos hb, if_pos hb]
      · rw [if_neg hb, if_neg hb, ih]

/-- Deleting an absent key is a no-op. -/
theorem mapDelete_of_get_none (A : String) (m : SessionMap)
    (h : mapGet A m = none) : mapDelete A m = m := by
  induction m with
  | nil => rfl
  | cons p rest ih =>
    obtain ⟨k, v⟩ := p
    simp only [mapGet] at h
    by_cases hk : k = A
    · rw [if_pos hk] at h
      exact absurd h (by simp)
    · rw [if_neg hk] at h
      simp only [mapDelete]
      rw [if_neg hk, ih h]

/-- After deleting key `A`, key `A` is absent. -/
theorem mapGet_mapDelete_self (A : String) (m : SessionMap) :
    mapGet A (mapDelete A m) = none := by
  induction m with
  | nil => rfl
  | cons p rest ih =>
    obtain ⟨k, v⟩ := p
    simp only [mapDelete]
    by_cases hk : k = A
    · rw [if_pos hk, ih]
    · rw [if_neg hk]
      simp only [mapGet]
      rw [if_neg hk, ih]

/-- Setting key `A` leaves every other key's entry unchanged. -/
theorem mapGet_mapSet_ne (A B : String) (v : SessionData) (m : SessionMap)
    (h : B ≠ A) : mapGet B (mapSet A v m) = mapGet B m := by
  induction m with
  | nil =>
    simp only [mapSet, mapGet]
    rw [if_neg (fun hb : A = B => h hb.symm)]
  | cons p rest ih =>
    obtain ⟨k, w⟩ := p
    simp only [mapSet]
    by_cases hk : k = A
    · rw [if_pos hk]
      simp only [mapGet]
      rw [if_neg (fun hb : A = B => h hb.symm), if_neg (fun hb : k = B => h (hb ▸ hk))]
    · rw [if_neg hk]
      simp only [mapGet]
      by_cases hb : k = B
      · rw [if_pos hb, if_pos hb]
      · rw [if_neg hb, if_neg hb, ih]

/-- Setting key `A` makes key `A` hold the new value. -/
theorem mapGet_mapSet_self (A : String) (v : SessionData) (m : SessionMap) :
    mapGet A (mapSet A v m) = some v := by
  induction m with
  | nil => simp [mapSet, mapGet]
  | cons p rest ih =>
    obtain ⟨k, w⟩ := p
    simp only [mapSet]
    by_cases hk : k = A
    · rw [if_pos hk]
      simp [mapGet]
    · rw [if_neg hk]
      simp only [mapGet]
      rw [if_neg hk, ih]

-- ============================================================================
-- Claim C1
-- ============================================================================

/-- Claim C1: session teardown is idempotent and isolated.  For every
session map and room id `A`, `cleanupSessionData A` leaves every other
key's entry unchanged; it is a no-op when `A` is absent; and a subsequent
`getSessionData A` yields the freshly-initialized session
(`freshSessionData`: empty callNotes/quoteRequests/messageRequests and a
customer context with both flags false and empty collectedInfo). -/
theorem cleanupSessionData_idempotent_isolated (sessions : SessionMap)
    (A : String) :
    (∀ B, B ≠ A →
      mapGet B (cleanupSessionData A sessions) = mapGet B sessions)
    ∧ (mapGet A sessions = none → cleanupSessionData A sessions = sessions)
    ∧ (getSessionData A (cleanupSessionData A sessions)).1
        = freshSessionData := by
  refine ⟨fun B hB => mapGet_mapDelete_ne A B sessions hB,
    fun h => mapDelete_of_get_none A sessions h, ?_⟩
  simp [getSessionData, cleanupSessionData, mapGet_mapDelete_self]

/-- Concrete witness for C1: with `A = "roomA"` absent and `"roomB"`
populated, cleanup leaves `"roomB"` alone, is a no-op, and re-access of
`"roomA"` is fresh. -/
theorem cleanupSessionData_idempotent_isolated_witness :
    mapGet "roomB" (cleanupSessionData "roomA" [("roomB", demoSession)])
      = some demoSession
    ∧ cleanupSessionData "roomA" [("roomB", demoSession)]
      = [("roomB", demoSession)]
    ∧ (getSessionData "roomA"
        (cleanupSessionData "roomA" [("roomB", demoSession)])).1
      = freshSessionData := by
  obtain ⟨h1, h2, h3⟩ :=
    cleanupSessionData_idempotent_isolated [("roomB", demoSession)] "roomA"
  exact ⟨(h1 "roomB" (by decide)).trans (by decide), h2 (by decide), h3⟩

-- ============================================================================
-- Claim C6
-- ============================================================================

/-- Claim C6: the office is open exactly on Pacific weekdays (day 1..5)
with local hour in [9,17) - so 5:00 PM exactly is closed and 9:00 AM on a
weekday is open - and `nextBusinessDay` is `"Monday"` exactly when the
local time is Friday at or after 17:00, Saturday, or Sunday, and
`"tomorrow"` in every other case. -/
theorem checkOfficeHours_spec (day hour : Nat) (ts dn : String) :
    ((checkOfficeHours day hour ts dn).isOpen = true ↔
      (1 ≤ day ∧ day ≤ 5) ∧ (9 ≤ hour ∧ hour < 17))
    ∧ ((checkOfficeHours day hour ts dn).nextBusinessDay = "Monday" ↔
      ((day = 5 ∧ 17 ≤ hour) ∨ day = 6 ∨ day = 0))
    ∧ ((checkOfficeHours day hour ts dn).nextBusinessDay = "tomorrow" ↔
      ¬((day = 5 ∧ 17 ≤ hour) ∨ day = 6 ∨ day = 0)) := by
  have hMT : ("Monday" : String) ≠ "tomorrow" := by decide
  refine ⟨?_, ?_, ?_⟩
  · simp [checkOfficeHours, Bool.and_eq_true, decide_eq_true_eq, and_assoc]
  · by_cases h0 : day = 0 <;> by_cases h6 : day = 6 <;>
      by_cases h5 : day = 5 ∧ 17 ≤ hour <;>
      simp [checkOfficeHours, h0, h6, h5, hMT.symm]
  · by_cases h0 : day = 0 <;> by_cases h6 : day = 6 <;>
      by_cases h5 : day = 5 ∧ 17 ≤ hour <;>
      simp [checkOfficeHours, h0, h6, h5, hMT, hMT.symm]

-- ============================================================================
-- Claim C7
-- ============================================================================

/-- Claim C7: `isEnabled` is true exactly when `enabled` is set and the
webhook URL is non-empty, and whenever it is false, `lookupCustomer`
returns success=true with data={found:false} regardless of the request. -/
theorem isEnabled_and_disabled_lookup (config : EZLynxConfig)
    (request : EZLynxLookupRequest) (correlationId now : String) :
    (isEnabled config = true ↔
      config.enabled = true ∧ config.webhookUrl ≠ "")
    ∧ (isEnabled config = false →
      lookupCustomer config request correlationId now =
        { success := true, data := some { found := false },
          responseTimestamp := now, correlationId := correlationId }) := by
  constructor
  · simp [isEnabled, Bool.and_eq_true]
  · intro h
    simp [lookupCustomer, h, createPlaceholderResponse]

/-- Concrete witness for C7: a config with an empty webhook URL is
disabled, and the lookup of an arbitrary request degrades gracefully. -/
theorem isEnabled_and_disabled_lookup_witness :
    lookupCustomer
        { webhookUrl := "", apiKey := none, timeoutMs := 5000,
          enabled := true, useMockData := true }
        { phoneNumber := "(714) 555-1234".toList, timestamp := "t",
          sessionId := "room-1" } "cid-1" "now-1" =
      { success := true, data := some { found := false },
        responseTimestamp := "now-1", correlationId := "cid-1" } :=
  (isEnabled_and_disabled_lookup
    { webhookUrl := "", apiKey := none, timeoutMs := 5000,
      enabled := true, useMockData := true }
    { phoneNumber := "(714) 555-1234".toList, timestamp := "t",
      sessionId := "room-1" } "cid-1" "now-1").2 (by decide)

-- ============================================================================
-- Claim C8
-- ============================================================================

/-- `createMockResponse` hits exactly when the request phone normalizes to
the fixture digits `7145551234`. -/
theorem createMockResponse_spec (request : EZLynxLookupRequest)
    (correlationId now : String) :
    createMockResponse request correlationId now =
      (if normalizeMockPhone request.phoneNumber = "7145551234".toList then
        { success := true, data := some mockCustomer,
          responseTimestamp := now, correlationId := correlationId }
      else
        { success := true, data := some { found := false },
          responseTimestamp := now, correlationId := correlationId }) := by
  have hkey : normalizeMockPhone "+17145551234".toList
      = "7145551234".toList := by decide
  simp only [createMockResponse, hkey]
  by_cases h : normalizeMockPhone request.phoneNumber = "7145551234".toList
  · rw [if_pos h.symm, if_pos h]
  · rw [if_neg (fun he => h he.symm), if_neg h]

/-- Claim C8: in mock mode (enabled, useMockData), a lookup whose phone
number's digits - after stripping a leading `1` from an 11-digit string -
equal `7145551234` returns the fixture customer (found, id `MOCK-001`),
and every other number yields success=true with data={found:false}. -/
theorem lookupCustomer_mock (config : EZLynxConfig)
    (request : EZLynxLookupRequest) (correlationId now : String)
    (hen : isEnabled config = true) (hmock : config.useMockData = true) :
    (normalizeMockPhone request.phoneNumber = "7145551234".toList →
      (lookupCustomer config request correlationId now).success = true
      ∧ (lookupCustomer config request correlationId now).data
          = some mockCustomer
      ∧ mockCustomer.found = true
      ∧ mockCustomer.customerId = some "MOCK-001")
    ∧ (normalizeMockPhone request.phoneNumber ≠ "7145551234".toList →
      lookupCustomer config request correlationId now =
        { success := true, data := some { found := false },
          responseTimestamp := now, correlationId := correlationId }) := by
  have hlc : lookupCustomer config request correlationId now
      = createMockResponse request correlationId now := by
    simp [lookupCustomer, hen, hmock]
  rw [hlc, createMockResponse_spec]
  constructor
  · intro hphone
    rw [if_pos hphone]
    exact ⟨rfl, rfl, rfl, rfl⟩
  · intro hphone
    rw [if_neg hphone]

/-- Concrete witness for C8: the fixture number in a punctuated format with
country code hits, and a different number misses. -/
theorem lookupCustomer_mock_witness :
    ((lookupCustomer
        { webhookUrl := "https://hooks.example/ezlynx", apiKey := none,
          timeoutMs := 5000, enabled := true, useMockData := true }
        { phoneNumber := "+1 (714) 555-1234".toList, timestamp := "t",
          sessionId := "room-2" } "cid-2" "now-2").data = some mockCustomer)
    ∧ (lookupCustomer
        { webhookUrl := "https://hooks.example/ezlynx", apiKey := none,
          timeoutMs := 5000, enabled := true, useMockData := true }
        { phoneNumber := "714-555-0000".toList, timestamp := "t",
          sessionId := "room-2" } "cid-3" "now-3" =
      { success := true, data := some { found := false },
        responseTimestamp := "now-3", correlationId := "cid-3" }) := by
  constructor
  · exact ((lookupCustomer_mock
      { webhookUrl := "https://hooks.example/ezlynx", apiKey := none,
        timeoutMs := 5000, enabled := true, useMockData := true }
      { phoneNumber := "+1 (714) 555-1234".toList, timestamp := "t",
        sessionId := "room-2" } "cid-2" "now-2"
      (by decide) (by decide)).1 (by decide)).2.1
  · exact (lookupCustomer_mock
      { webhookUrl := "https://hooks.example/ezlynx", apiKey := none,
        timeoutMs := 5000, enabled := true, useMockData := true }
      { phoneNumber := "714-555-0000".toList, timestamp := "t",
        sessionId := "room-2" } "cid-3" "now-3"
      (by decide) (by decide)).2 (by decide)

-- ============================================================================
-- Claim C9
-- ============================================================================

/-- Claim C9: when the phone number fails validation, the `lookupCustomer`
tool returns found=false with the re-ask message (and the validation
error), and the session state is exactly unchanged: the session observed
for the room afterwards equals the one observed before, and every other
room's entry is untouched - rejection happens before any state mutation. -/
theorem executeLookupCustomer_invalid (config : EZLynxConfig)
    (roomName : String) (phoneNumber : JStr) (callerName : Option JStr)
    (now correlationId : String) (sessions : SessionMap)
    (h : (validatePhone phoneNumber).isValid = false) :
    (executeLookupCustomer config roomName phoneNumber callerName now
      correlationId sessions).1.found = false
    ∧ (executeLookupCustomer config roomName phoneNumber callerName now
      correlationId sessions).1.error = (validatePhone phoneNumber).error
    ∧ (executeLookupCustomer config roomName phoneNumber callerName now
      correlationId sessions).1.message = some reAskMessage
    ∧ (getSessionData roomName
        (executeLookupCustomer config roomName phoneNumber callerName now
          correlationId sessions).2).1
      = (getSessionData roomName sessions).1
    ∧ ∀ other, other ≠ roomName →
        mapGet other (executeLookupCustomer config roomName phoneNumber
          callerName now correlationId sessions).2 = mapGet other sessions := by
  rcases hget : mapGet roomName sessions with _ | s
  · have hg : getSessionData roomName sessions
        = (freshSessionData, mapSet roomName freshSessionData sessions) := by
      rw [getSessionData, hget]
    have hexec : executeLookupCustomer config roomName phoneNumber callerName
        now correlationId sessions
        = ({ found := false, error := (validatePhone phoneNumber).error,
             message := some reAskMessage },
           mapSet roomName freshSessionData sessions) := by
      simp [executeLookupCustomer, hg, h]
    rw [hexec]
    refine ⟨rfl, rfl, rfl, ?_, ?_⟩
    · rw [hg]
      show (getSessionData roomName
        (mapSet roomName freshSessionData sessions)).1 = freshSessionData
      rw [getSessionData, mapGet_mapSet_self]
    · intro other hne
      exact mapGet_mapSet_ne roomName other freshSessionData sessions hne
  · have hg : getSessionData roomName sessions = (s, sessions) := by
      rw [getSessionData, hget]
    have hexec : executeLookupCustomer config roomName phoneNumber callerName
        now correlationId sessions
        = ({ found := false, error := (validatePhone phoneNumber).error,
             message := some reAskMessage }, sessions) := by
      simp [executeLookupCustomer, hg, h]
    rw [hexec]
    exact ⟨rfl, rfl, rfl, rfl, fun other _ => rfl⟩

/-- Concrete witness for C9: the too-short phone `"123"` is rejected with
the re-ask message, the session for the room is unchanged (fresh), and the
other room's populated entry is untouched. -/
theorem executeLookupCustomer_invalid_witness :
    (executeLookupCustomer
      { webhookUrl := "https://hooks.example/ezlynx", apiKey := none,
        timeoutMs := 5000, enabled := true, useMockData := true }
      "room-9" "123".toList none "now-9" "cid-9"
      [("other", demoSession)]).1.found = false
    ∧ (executeLookupCustomer
      { webhookUrl := "https://hooks.example/ezlynx", apiKey := none,
        timeoutMs := 5000, enabled := true, useMockData := true }
      "room-9" "123".toList none "now-9" "cid-9"
      [("other", demoSession)]).1.message = some reAskMessage
    ∧ (getSessionData "room-9"
        (executeLookupCustomer
          { webhookUrl := "https://hooks.example/ezlynx", apiKey := none,
            timeoutMs := 5000, enabled := true, useMockData := true }
          "room-9" "123".toList none "now-9" "cid-9"
          [("other", demoSession)]).2).1
      = (getSessionData "room-9" [("other", demoSession)]).1
    ∧ mapGet "other"
        (executeLookupCustomer
          { webhookUrl := "https://hooks.example/ezlynx", apiKey := none,
            timeoutMs := 5000, enabled := true, useMockData := true }
          "room-9" "123".toList none "now-9" "cid-9"
          [("other", demoSession)]).2 = some demoSession := by
  obtain ⟨h1, h2, h3, h4, h5⟩ :=
    executeLookupCustomer_invalid
      { webhookUrl := "https://hooks.example/ezlynx", apiKey := none,
        timeoutMs := 5000, enabled := true, useMockData := true }
      "room-9" "123".toList none "now-9" "cid-9"
      [("other", demoSession)] (by decide)
  exact ⟨h1, h3, h4, (h5 "other" (by decide)).trans (by decide)⟩

-- ============================================================================
-- Claim C2
-- ============================================================================

/-- Claim C2: `maskPII` is total and non-mutating (both by construction in
this embedding: it is a total pure function), and it returns null,
undefined, numbers, booleans, top-level/array strings, and string fields
whose name is neither a recognized name field nor a recognized PII field
exactly unchanged. -/
theorem maskPII_preserves_nonPII :
    maskPII .null = .null
    ∧ maskPII .undef = .undef
    ∧ (∀ n, maskPII (.num n) = .num n)
    ∧ (∀ b, maskPII (.bool b) = .bool b)
    ∧ (∀ s, maskPII (.str s) = .str s)
    ∧ (∀ key n, maskPIIEntry key (.num n) = .num n)
    ∧ (∀ key b, maskPIIEntry key (.bool b) = .bool b)
    ∧ (∀ key s, isNameField key = false → isPIIField key = false →
        maskPIIEntry key (.str s) = .str s) := by
  refine ⟨rfl, rfl, fun n => rfl, fun b => rfl, fun s => rfl,
    fun key n => rfl, fun key b => rfl, ?_⟩
  intro key s h1 h2
  simp [maskPIIEntry, h1, h2]

/-- Concrete witness for C2: the unrecognized field `notes` passes through. -/
theorem maskPII_preserves_nonPII_witness :
    maskPIIEntry "notes".toList (.str "hello caller".toList)
      = .str "hello caller".toList :=
  maskPII_preserves_nonPII.2.2.2.2.2.2.2 "notes".toList
    "hello caller".toList (by decide) (by decide)

-- ============================================================================
-- Claim C10
-- ============================================================================

/-- Arrays masked elementwise keep the claimed shape. -/
theorem claimOKList_mask (items : List JValue)
    (ih : ∀ x ∈ items, claimOK x (maskPII x) = true) :
    claimOKList items (maskPIIList items) = true := by
  induction items with
  | nil => simp [maskPIIList, claimOKList]
  | cons x xs tail_ih =>
    simp only [maskPIIList, claimOKList, Bool.and_eq_true]
    exact ⟨ih x (by simp), tail_ih (fun y hy => ih y (by simp [hy]))⟩

/-- A masked object entry keeps the claimed shape. -/
theorem claimOKEntry_mask (key : JStr) (v : JValue)
    (h : claimOK v (maskPII v) = true) :
    claimOKEntry key v (maskPIIEntry key v) = true := by
  cases v with
  | null => simp [claimOKEntry, maskPIIEntry]
  | undef => simp [claimOKEntry, maskPIIEntry]
  | num n => simp [claimOKEntry, maskPIIEntry]
  | bool b => simp [claimOKEntry, maskPIIEntry]
  | str s =>
    by_cases h1 : isNameField key
    · simp [claimOKEntry, maskPIIEntry, h1]
    · by_cases h2 : isPIIField key
      · simp [claimOKEntry, maskPIIEntry, h1, h2]
      · simp [claimOKEntry, maskPIIEntry, h1, h2]
  | arr items => simpa [claimOKEntry, maskPIIEntry, claimOK, maskPII] using h
  | obj fields => simpa [claimOKEntry, maskPIIEntry, claimOK, maskPII] using h

/-- Masked objects keep the claimed shape, key sequence included. -/
theorem claimOKFields_mask (fs : List (JStr × JValue))
    (ih : ∀ p ∈ fs, claimOK p.2 (maskPII p.2) = true) :
    claimOKFields fs (maskPIIFields fs) = true := by
  induction fs with
  | nil => simp [maskPIIFields, claimOKFields]
  | cons p rest tail_ih =>
    obtain ⟨k, v⟩ := p
    simp only [maskPIIFields, claimOKFields, Bool.and_eq_true]
    exact ⟨⟨by simp, claimOKEntry_mask k v (ih ⟨k, v⟩ (by simp))⟩,
      tail_ih (fun q hq => ih q (by simp [hq]))⟩

/-- Claim C10: `maskPII` preserves structure - arrays map to arrays of the
same length, objects to objects with exactly the same key sequence,
null/undefined to themselves - and an output leaf can differ from the
corresponding input leaf only when it is a string under a field name that,
normalized, belongs to the name-field or PII-field sets. -/
theorem maskPII_shape (v : JValue) : claimOK v (maskPII v) = true := by
  induction v using JValue.inductionOn with
  | hnull => simp [maskPII, claimOK]
  | hundef => simp [maskPII, claimOK]
  | hnum n => simp [maskPII, claimOK]
  | hbool b => simp [maskPII, claimOK]
  | hstr s => simp [maskPII, claimOK]
  | harr items ih => simpa [maskPII, claimOK] using claimOKList_mask items ih
  | hobj fields ih =>
    simpa [maskPII, claimOK] using claimOKFields_mask fields ih

-- ============================================================================
-- Digit-string helper lemmas
-- ============================================================================

/-- Extracted digits are all digits. -/
theorem all_digits_filter (s : JStr) :
    (s.filter Char.isDigit).all Char.isDigit = true := by
  rw [List.all_eq_true]
  intro c hc
  exact (List.mem_filter.mp hc).2

/-- Extracting digits from an all-digit string is the identity. -/
theorem filter_digits_of_all (d : JStr) (h : d.all Char.isDigit = true) :
    d.filter Char.isDigit = d :=
  List.filter_eq_self.mpr (List.all_eq_true.mp h)

/-- Dropping preserves all-digit strings. -/
theorem all_digits_drop (d : JStr) (k : Nat) (h : d.all Char.isDigit = true) :
    (d.drop k).all Char.isDigit = true := by
  rw [List.all_eq_true] at h ⊢
  intro c hc
  exact h c (List.mem_of_mem_drop hc)

/-- Asterisk runs contain no digits. -/
theorem filter_star_replicate (n : Nat) :
    (List.replicate n '*').filter Char.isDigit = [] := by
  have h : Char.isDigit '*' = false := by decide
  simp [List.filter_replicate, h]

/-- A list of positive length is not empty. -/
theorem isEmpty_false_of_length_pos (l : JStr) (h : 0 < l.length) :
    l.isEmpty = false := by
  cases l with
  | nil => simp at h
  | cons a t => rfl

-- ============================================================================
-- maskPhone branch lemmas
-- ============================================================================

/-- `maskPhone` with at most `showLast` digits returns its input. -/
theorem maskPhone_of_le (s : JStr)
    (h : (s.filter Char.isDigit).length ≤ 4) : maskPhone s 4 = s := by
  simp only [maskPhone]
  split_ifs with h1
  · rfl
  · rfl

/-- `maskPhone` on a 10-digit value formats as a US number. -/
theorem maskPhone_of_ten (s : JStr)
    (h : (s.filter Char.isDigit).length = 10) :
    maskPhone s 4 = "(***) ***-".toList ++ (s.filter Char.isDigit).drop 6 := by
  have hne : s.isEmpty = false := by
    cases s with
    | nil => simp [List.filter_nil] at h
    | cons a t => rfl
  simp only [maskPhone, hne, Bool.false_eq_true, if_false]
  rw [if_neg (by omega), if_pos h, h]

/-- `maskPhone` on an 11-digit value with leading `1` formats as `+1 ...`. -/
theorem maskPhone_of_eleven (s : JStr)
    (h : (s.filter Char.isDigit).length = 11
      ∧ (s.filter Char.isDigit).head? = some '1') :
    maskPhone s 4
      = "+1 (***) ***-".toList ++ (s.filter Char.isDigit).drop 7 := by
  have hne : s.isEmpty = false := by
    cases s with
    | nil => simp [List.filter_nil] at h
    | cons a t => rfl
  simp only [maskPhone, hne, Bool.false_eq_true, if_false]
  rw [if_neg (by omega), if_neg (by omega), if_pos h, h.1]

/-- `maskPhone` in the generic branch masks all but the last 4 digits. -/
theorem maskPhone_generic (s : JStr)
    (h4 : 4 < (s.filter Char.isDigit).length)
    (h10 : (s.filter Char.isDigit).length ≠ 10)
    (h11 : ¬((s.filter Char.isDigit).length = 11
      ∧ (s.filter Char.isDigit).head? = some '1')) :
    maskPhone s 4
      = List.replicate ((s.filter Char.isDigit).length - 4) '*'
        ++ (s.filter Char.isDigit).drop ((s.filter Char.isDigit).length - 4) := by
  have hne : s.isEmpty = false := by
    cases s with
    | nil => simp [List.filter_nil] at h4
    | cons a t => rfl
  simp only [maskPhone, hne, Bool.false_eq_true, if_false]
  rw [if_neg (by omega), if_neg h10, if_neg h11]

-- ============================================================================
-- Claim C4
-- ============================================================================

/-- `maskPIIEntry` on a phone-named field is `maskPhone` with showLast 4. -/
theorem maskPIIEntry_phone (key s : JStr)
    (h : normalizeField key = "phone".toList
      ∨ normalizeField key = "phonenumber".toList) :
    maskPIIEntry key (.str s) = .str (maskPhone s 4) := by
  have h1 : isNameField key = false := by
    rcases h with h | h <;> rw [isNameField, h] <;> decide
  have h2 : isPIIField key = true := by
    rcases h with h | h <;> rw [isPIIField, h] <;> decide
  have h3 : maskPIIValue key s = maskPhone s 4 := by
    rcases h with h | h
    · simp only [maskPIIValue, h]
      simp
    · simp only [maskPIIValue, h]
      simp
  simp [maskPIIEntry, h1, h2, h3]

/-- The source's `maskPhone` agrees everywhere with the amended claim rule. -/
theorem maskPhone_eq_claimAmended (s : JStr) :
    maskPhone s 4 = maskPhoneClaimAmended s := by
  by_cases h10 : (s.filter Char.isDigit).length = 10
  · rw [maskPhone_of_ten s h10]
    simp only [maskPhoneClaimAmended]
    rw [if_pos h10, h10]
  · by_cases h11 : (s.filter Char.isDigit).length = 11
        ∧ (s.filter Char.isDigit).head? = some '1'
    · rw [maskPhone_of_eleven s h11]
      simp only [maskPhoneClaimAmended]
      rw [if_neg h10, if_pos h11, h11.1]
    · by_cases h4 : (s.filter Char.isDigit).length ≤ 4
      · rw [maskPhone_of_le s h4]
        simp only [maskPhoneClaimAmended]
        rw [if_neg h10, if_neg h11, if_pos h4]
      · rw [maskPhone_generic s (by omega) h10 h11]
        simp only [maskPhoneClaimAmended]
        rw [if_neg h10, if_neg h11, if_neg h4]

/-- Counterexample to C4 as stated: on the phone field value `"12-34"`
(digit count exactly 4 = showLast) the source returns the original string
unchanged, while the claim's rule would return the bare digits `"1234"`. -/
theorem maskPhoneClaim_counterexample :
    maskPIIEntry "phone".toList (.str "12-34".toList)
      ≠ .str (maskPhoneClaim "12-34".toList) := by decide

/-- Claim C4 (amended): for every string under a phone/phonenumber field
the masked value follows the claim's digit-count rule with "fewer than
showLast" corrected to "at most showLast". -/
theorem maskPhoneClaimAmended_holds (key s : JStr)
    (h : normalizeField key = "phone".toList
      ∨ normalizeField key = "phonenumber".toList) :
    maskPIIEntry key (.str s) = .str (maskPhoneClaimAmended s) := by
  rw [maskPIIEntry_phone key s h, maskPhone_eq_claimAmended]

/-- Concrete witness for the amended C4: a `phone_number`-named field with
an 11-digit formatted value. -/
theorem maskPhoneClaimAmended_holds_witness :
    maskPIIEntry "phone_number".toList (.str "+1 714 555 1234".toList)
      = .str (maskPhoneClaimAmended "+1 714 555 1234".toList) :=
  maskPhoneClaimAmended_holds "phone_number".toList
    "+1 714 555 1234".toList (by decide)

-- ============================================================================
-- splitChar lemmas and maskEmail idempotence
-- ============================================================================

/-- Unpack a `contains = false` fact over a cons cell. -/
theorem contains_false_cons (sep c : Char) (l : JStr)
    (h : (c :: l).contains sep = false) :
    ¬(c = sep) ∧ l.contains sep = false := by
  have hmem : sep ∉ c :: l := by simpa using h
  refine ⟨fun hEq => hmem (by rw [hEq]; exact List.mem_cons_self _ _), ?_⟩
  have hml : sep ∉ l := fun hm => hmem (List.mem_cons_of_mem c hm)
  simpa using hml

/-- Splitting a separator-free string yields a single chunk. -/
theorem splitChar_not_contains (sep : Char) (Q : JStr)
    (h : Q.contains sep = false) : splitChar sep Q = [Q] := by
  induction Q with
  | nil => rfl
  | cons c rest ih =>
    obtain ⟨hc, hrest⟩ := contains_false_cons sep c rest h
    simp only [splitChar, if_neg hc, ih hrest, consHead]

/-- Splitting at the first separator: the first chunk is the prefix. -/
theorem splitChar_append_sep (sep : Char) (P Q : JStr)
    (h : P.contains sep = false) :
    splitChar sep (P ++ sep :: Q) = P :: splitChar sep Q := by
  induction P with
  | nil => simp [splitChar]
  | cons c P2 ih =>
    obtain ⟨hc, hrest⟩ := contains_false_cons sep c P2 h
    rw [List.cons_append, splitChar, if_neg hc, ih hrest, consHead]

/-- A string containing `'@'` splits as a `'@'`-free prefix, the
separator, and a remainder. -/
theorem exists_split_first (s : JStr) (h : s.contains '@' = true) :
    ∃ P Q, s = P ++ '@' :: Q ∧ P.contains '@' = false := by
  induction s with
  | nil => simp at h
  | cons c rest ih =>
    by_cases hc : c = '@'
    · exact ⟨[], rest, by rw [hc, List.nil_append], by simp⟩
    · have hrest : rest.contains '@' = true := by
        have hmem : '@' ∈ c :: rest := by simpa using h
        rcases List.mem_cons.mp hmem with h1 | h1
        · exact absurd h1.symm hc
        · simpa using h1
      obtain ⟨P, Q, hPQ, hP⟩ := ih hrest
      refine ⟨c :: P, Q, by rw [List.cons_append, hPQ], ?_⟩
      have hm : '@' ∉ c :: P := by
        intro hm
        rcases List.mem_cons.mp hm with h1 | h1
        · exact hc h1.symm
        · have hPm : '@' ∉ P := by simpa using hP
          exact hPm h1
      simpa using hm

/-- Evaluate `maskEmail` on a decomposed input: the local part is the
prefix before the first `'@'` and the domain is the first chunk after. -/
theorem maskEmail_split (P Q D : JStr) (rest : List JStr)
    (hP : P.contains '@' = false) (hQ : splitChar '@' Q = D :: rest) :
    maskEmail (P ++ '@' :: Q) =
      (if P.length ≤ 1 then '*' :: '@' :: D
       else P.take 1 ++ List.replicate (P.length - 1) '*' ++ '@' :: D) := by
  have hne : (P ++ '@' :: Q).isEmpty = false := by cases P <;> rfl
  have hcon : (P ++ '@' :: Q).contains '@' = true := by simp
  have hsp : splitChar '@' (P ++ '@' :: Q) = P :: D :: rest := by
    rw [splitChar_append_sep '@' P Q hP, hQ]
  rw [maskEmail, if_neg (by rw [hne, hcon]; simp), hsp]

/-- `maskEmail` is idempotent. -/
theorem maskEmail_idem (s : JStr) : maskEmail (maskEmail s) = maskEmail s := by
  by_cases hc : s.contains '@' = true
  case neg =>
    have hc' : s.contains '@' = false := by simpa using hc
    have ho : maskEmail s = s := by
      rw [maskEmail, if_pos (by rw [hc']; simp)]
    rw [ho]
    exact ho
  case pos =>
    obtain ⟨P, Q, hs, hP⟩ := exists_split_first s hc
    subst hs
    obtain ⟨D, rest, hQ, hD⟩ :
        ∃ D rest, splitChar '@' Q = D :: rest ∧ D.contains '@' = false := by
      by_cases hq : Q.contains '@' = true
      · obtain ⟨P2, Q2, hQ2, hP2⟩ := exists_split_first Q hq
        rw [hQ2, splitChar_append_sep '@' P2 Q2 hP2]
        exact ⟨P2, splitChar '@' Q2, rfl, hP2⟩
      · have hq' : Q.contains '@' = false := by
          rcases Bool.eq_false_or_eq_true (Q.contains '@') with h1 | h1
          · exact absurd h1 hq
          · exact h1
        exact ⟨Q, [], splitChar_not_contains '@' Q hq', hq'⟩
    rw [maskEmail_split P Q D rest hP hQ]
    by_cases hlen : P.length ≤ 1
    · rw [if_pos hlen]
      have h1 : maskEmail (['*'] ++ '@' :: D) = '*' :: '@' :: D := by
        rw [maskEmail_split ['*'] D D [] (by decide)
          (splitChar_not_contains '@' D hD)]
        rfl
      exact h1
    · rw [if_neg hlen]
      have hP1 : 2 ≤ P.length := by omega
      have htake1 : (P.take 1).length = 1 := by
        rw [List.length_take]
        omega
      have hP2at : (P.take 1 ++ List.replicate (P.length - 1) '*').contains '@'
          = false := by
        have hm : '@' ∉ P.take 1 ++ List.replicate (P.length - 1) '*' := by
          intro hm
          rcases List.mem_append.mp hm with h1 | h1
          · have hPm : '@' ∉ P := by simpa using hP
            exact hPm (List.mem_of_mem_take h1)
          · have := List.eq_of_mem_replicate h1
            simp at this
        simpa using hm
      rw [maskEmail_split (P.take 1 ++ List.replicate (P.length - 1) '*') D D []
        hP2at (splitChar_not_contains '@' D hD)]
      have hP2len : (P.take 1 ++ List.replicate (P.length - 1) '*').length
          = P.length := by
        rw [List.length_append, htake1, List.length_replicate]
        omega
      rw [if_neg (by rw [hP2len]; omega), hP2len]
      have htt : (P.take 1 ++ List.replicate (P.length - 1) '*').take 1
          = P.take 1 := by
        rw [List.take_append_eq_append_take, htake1]
        simp [List.take_take]
      rw [htt]

-- ============================================================================
-- maskSSN idempotence and maskPhone re-masking
-- ============================================================================

/-- `maskSSN` is idempotent. -/
theorem maskSSN_idem (s : JStr) : maskSSN (maskSSN s) = maskSSN s := by
  by_cases he : s.isEmpty = true
  · have hs : s = [] := by
      cases s with
      | nil => rfl
      | cons a t => simp [List.isEmpty] at he
    subst hs
    decide
  · have he' : s.isEmpty = false := by simpa using he
    by_cases hlt : (s.filter Char.isDigit).length < 4
    · have ho : maskSSN s = "***-**-****".toList := by
        rw [maskSSN, if_neg (by rw [he']; simp), if_pos hlt]
      rw [ho]
      decide
    · have ho : maskSSN s = "***-**-".toList
          ++ (s.filter Char.isDigit).drop ((s.filter Char.isDigit).length - 4) := by
        rw [maskSSN, if_neg (by rw [he']; simp), if_neg hlt]
      rw [ho]
      have hvall : ((s.filter Char.isDigit).drop
          ((s.filter Char.isDigit).length - 4)).all Char.isDigit = true :=
        all_digits_drop _ _ (all_digits_filter s)
      have hvlen : ((s.filter Char.isDigit).drop
          ((s.filter Char.isDigit).length - 4)).length = 4 := by
        rw [List.length_drop]
        omega
      have hfil : (("***-**-".toList
          ++ (s.filter Char.isDigit).drop ((s.filter Char.isDigit).length - 4))
            |>.filter Char.isDigit)
          = (s.filter Char.isDigit).drop ((s.filter Char.isDigit).length - 4) := by
        rw [List.filter_append, filter_digits_of_all _ hvall]
        have hpre : (("***-**-".toList : JStr).filter Char.isDigit) = [] := by
          decide
        rw [hpre, List.nil_append]
      have hne2 : ("***-**-".toList
          ++ (s.filter Char.isDigit).drop
            ((s.filter Char.isDigit).length - 4)).isEmpty = false := rfl
      simp only [maskSSN, hne2, Bool.false_eq_true, if_false, hfil, hvlen]
      rw [if_neg (by omega : ¬(4 : Nat) < 4)]
      simp

/-- Re-masking a masked phone is the identity except in the 11-digit
US-format case. -/
theorem maskPhone_remask_ne11 (s : JStr)
    (h : ¬((s.filter Char.isDigit).length = 11
      ∧ (s.filter Char.isDigit).head? = some '1')) :
    maskPhone (maskPhone s 4) 4 = maskPhone s 4 := by
  by_cases h4 : (s.filter Char.isDigit).length ≤ 4
  · rw [maskPhone_of_le s h4]
    exact maskPhone_of_le s h4
  · by_cases h10 : (s.filter Char.isDigit).length = 10
    · rw [maskPhone_of_ten s h10]
      apply maskPhone_of_le
      have hfil : (("(***) ***-".toList
          ++ (s.filter Char.isDigit).drop 6).filter Char.isDigit)
          = (s.filter Char.isDigit).drop 6 := by
        rw [List.filter_append,
          filter_digits_of_all _ (all_digits_drop _ _ (all_digits_filter s))]
        have hpre : (("(***) ***-".toList : JStr).filter Char.isDigit)
            = [] := by decide
        rw [hpre, List.nil_append]
      rw [hfil, List.length_drop]
      omega
    · rw [maskPhone_generic s (by omega) h10 h]
      apply maskPhone_of_le
      have hfil : ((List.replicate ((s.filter Char.isDigit).length - 4) '*'
          ++ (s.filter Char.isDigit).drop
            ((s.filter Char.isDigit).length - 4)).filter Char.isDigit)
          = (s.filter Char.isDigit).drop
            ((s.filter Char.isDigit).length - 4) := by
        rw [List.filter_append, filter_star_replicate,
          filter_digits_of_all _ (all_digits_drop _ _ (all_digits_filter s)),
          List.nil_append]
      rw [hfil, List.length_drop]
      omega

/-- In the 11-digit US-format case the first mask yields
`+1 (***) ***-XXXX`, and re-masking turns it into `*XXXX` - the visible
last four digits are preserved but the string changes. -/
theorem maskPhone_remask_eleven (s : JStr)
    (h : (s.filter Char.isDigit).length = 11
      ∧ (s.filter Char.isDigit).head? = some '1') :
    maskPhone s 4 = "+1 (***) ***-".toList ++ (s.filter Char.isDigit).drop 7
    ∧ maskPhone (maskPhone s 4) 4
      = '*' :: (s.filter Char.isDigit).drop 7 := by
  have ho := maskPhone_of_eleven s h
  refine ⟨ho, ?_⟩
  rw [ho]
  have hvall : ((s.filter Char.isDigit).drop 7).all Char.isDigit = true :=
    all_digits_drop _ 7 (all_digits_filter s)
  have hvlen : ((s.filter Char.isDigit).drop 7).length = 4 := by
    rw [List.length_drop]
    omega
  have hfil : (("+1 (***) ***-".toList
      ++ (s.filter Char.isDigit).drop 7).filter Char.isDigit)
      = '1' :: (s.filter Char.isDigit).drop 7 := by
    rw [List.filter_append, filter_digits_of_all _ hvall]
    have hpre : (("+1 (***) ***-".toList : JStr).filter Char.isDigit)
        = ['1'] := by decide
    rw [hpre]
    rfl
  have hne : ("+1 (***) ***-".toList
      ++ (s.filter Char.isDigit).drop 7).isEmpty = false := rfl
  have hlen5 : ('1' :: (s.filter Char.isDigit).drop 7).length = 5 := by
    rw [List.length_cons, hvlen]
  simp only [maskPhone, hne, Bool.false_eq_true, if_false, hfil, hlen5]
  rw [if_neg (by omega : ¬(5 : Nat) ≤ 4),
    if_neg (by omega : ¬(5 : Nat) = 10),
    if_neg (fun hc => absurd hc.1 (by omega))]
  rfl

-- ============================================================================
-- Claim C3
-- ============================================================================

/-- `maskPIIEntry` on an email-named field is `maskEmail`. -/
theorem maskPIIEntry_email (key s : JStr)
    (h : normalizeField key = "email".toList) :
    maskPIIEntry key (.str s) = .str (maskEmail s) := by
  have h1 : isNameField key = false := by
    rw [isNameField, h]
    decide
  have h2 : isPIIField key = true := by
    rw [isPIIField, h]
    decide
  have h3 : maskPIIValue key s = maskEmail s := by
    simp only [maskPIIValue, h]
    simp
  simp [maskPIIEntry, h1, h2, h3]

/-- `maskPIIEntry` on an ssn-named field is `maskSSN`. -/
theorem maskPIIEntry_ssn (key s : JStr)
    (h : normalizeField key = "ssn".toList) :
    maskPIIEntry key (.str s) = .str (maskSSN s) := by
  have h1 : isNameField key = false := by
    rw [isNameField, h]
    decide
  have h2 : isPIIField key = true := by
    rw [isPIIField, h]
    decide
  have h3 : maskPIIValue key s = maskSSN s := by
    simp only [maskPIIValue, h]
    rw [if_neg (show ¬(("ssn".toList : JStr) = "email".toList) by decide),
      if_neg (show ¬(("ssn".toList : JStr) = "phonenumber".toList
        ∨ ("ssn".toList : JStr) = "phone".toList) by decide)]
    simp
  simp [maskPIIEntry, h1, h2, h3]

/-- Counterexample to C3 as stated: masking the record
`{phone: "+17145551234"}` twice does not equal masking it once - the first
mask gives `+1 (***) ***-1234`, the second `*1234`. -/
theorem maskPII_idem_counterexample :
    maskPII (maskPII (.obj [("phone".toList, .str "+17145551234".toList)]))
      ≠ maskPII (.obj [("phone".toList, .str "+17145551234".toList)]) := by
  decide

/-- Claim C3 (amended): `maskPII` is idempotent on email- and ssn-named
string fields, and on phone-named fields except when the value has exactly
11 digits starting with `1`; in that case the second application turns
`+1 (***) ***-XXXX` into `*XXXX`, still ending in the same visible last
four digits. -/
theorem maskPII_idem_amended (key s : JStr) :
    (normalizeField key = "email".toList →
      maskPIIEntry key (maskPIIEntry key (.str s))
        = maskPIIEntry key (.str s))
    ∧ (normalizeField key = "ssn".toList →
      maskPIIEntry key (maskPIIEntry key (.str s))
        = maskPIIEntry key (.str s))
    ∧ ((normalizeField key = "phone".toList
        ∨ normalizeField key = "phonenumber".toList) →
      (¬((s.filter Char.isDigit).length = 11
          ∧ (s.filter Char.isDigit).head? = some '1') →
        maskPIIEntry key (maskPIIEntry key (.str s))
          = maskPIIEntry key (.str s))
      ∧ (((s.filter Char.isDigit).length = 11
          ∧ (s.filter Char.isDigit).head? = some '1') →
        maskPIIEntry key (.str s)
          = .str ("+1 (***) ***-".toList ++ (s.filter Char.isDigit).drop 7)
        ∧ maskPIIEntry key (maskPIIEntry key (.str s))
          = .str ('*' :: (s.filter Char.isDigit).drop 7))) := by
  refine ⟨?_, ?_, ?_⟩
  · intro h
    rw [maskPIIEntry_email key s h, maskPIIEntry_email key _ h, maskEmail_idem]
  · intro h
    rw [maskPIIEntry_ssn key s h, maskPIIEntry_ssn key _ h, maskSSN_idem]
  · intro h
    constructor
    · intro h11
      rw [maskPIIEntry_phone key s h, maskPIIEntry_phone key _ h,
        maskPhone_remask_ne11 s h11]
    · intro h11
      obtain ⟨e1, e2⟩ := maskPhone_remask_eleven s h11
      refine ⟨?_, ?_⟩
      · rw [maskPIIEntry_phone key s h, e1]
      · rw [maskPIIEntry_phone key s h, maskPIIEntry_phone key _ h, e2]

/-- Concrete witness for the amended C3: double-masking a real email is
stable, and double-masking an 11-digit phone gives `*1234` while keeping
the visible last four digits. -/
theorem maskPII_idem_amended_witness :
    maskPIIEntry "email".toList
        (maskPIIEntry "email".toList (.str "john.smith@example.com".toList))
      = maskPIIEntry "email".toList (.str "john.smith@example.com".toList)
    ∧ maskPIIEntry "phone".toList (.str "+17145551234".toList)
      = .str ("+1 (***) ***-".toList
          ++ ("+17145551234".toList.filter Char.isDigit).drop 7)
    ∧ maskPIIEntry "phone".toList
        (maskPIIEntry "phone".toList (.str "+17145551234".toList))
      = .str ('*' :: ("+17145551234".toList.filter Char.isDigit).drop 7) := by
  refine ⟨(maskPII_idem_amended "email".toList
    "john.smith@example.com".toList).1 (by decide), ?_, ?_⟩
  · exact (((maskPII_idem_amended "phone".toList
      "+17145551234".toList).2.2 (by decide)).2 (by decide)).1
  · exact (((maskPII_idem_amended "phone".toList
      "+17145551234".toList).2.2 (by decide)).2 (by decide)).2

-- ============================================================================
-- Claim C5
-- ============================================================================

/-- Membership in a `dropWhile` implies membership in the source list. -/
theorem mem_of_mem_dropWhile (p : Char → Bool) (l : JStr) (x : Char)
    (h : x ∈ l.dropWhile p) : x ∈ l := by
  induction l with
  | nil => simp at h
  | cons c rest ih =>
    rw [List.dropWhile_cons] at h
    by_cases hp : p c = true
    · rw [if_pos hp] at h
      exact List.mem_cons_of_mem c (ih h)
    · rw [if_neg hp] at h
      exact h

/-- Trimming only removes characters. -/
theorem mem_trimJS (s : JStr) (x : Char) (h : x ∈ trimJS s) : x ∈ s := by
  rw [trimJS, List.mem_reverse] at h
  have h2 := mem_of_mem_dropWhile _ _ _ h
  rw [List.mem_reverse] at h2
  exact mem_of_mem_dropWhile _ _ _ h2

/-- Trimming preserves an all-characters property. -/
theorem all_trimJS (s : JStr) (p : Char → Bool) (h : s.all p = true) :
    (trimJS s).all p = true := by
  rw [List.all_eq_true] at h ⊢
  exact fun x hx => h x (mem_trimJS s x hx)

/-- Claim C5: on input whose characters all lie in the allowed class
(digits, whitespace, dash, parens, dot, plus), that is not empty or
whitespace-only, and whose digit count d is in [10,15], `validatePhone`
returns isValid=true, error=null, and normalized `"+1"+digits` for d=10,
`"+"+digits` for d=11 starting with 1, and `"+"+digits` otherwise. -/
theorem validatePhone_valid (s : JStr)
    (hall : s.all phoneChar = true)
    (hne : trimJS s ≠ [])
    (hlo : 10 ≤ (s.filter Char.isDigit).length)
    (hhi : (s.filter Char.isDigit).length ≤ 15) :
    (validatePhone s).isValid = true
    ∧ (validatePhone s).error = none
    ∧ ((s.filter Char.isDigit).length = 10 →
        (validatePhone s).normalized
          = some ('+' :: '1' :: s.filter Char.isDigit))
    ∧ ((s.filter Char.isDigit).length = 11
        ∧ (s.filter Char.isDigit).head? = some '1' →
        (validatePhone s).normalized = some ('+' :: s.filter Char.isDigit))
    ∧ (¬((s.filter Char.isDigit).length = 10) →
       ¬((s.filter Char.isDigit).length = 11
          ∧ (s.filter Char.isDigit).head? = some '1') →
        (validatePhone s).normalized = some ('+' :: s.filter Char.isDigit)) := by
  have hs : s ≠ [] := by
    intro hcon
    exact hne (by rw [hcon]; rfl)
  have hemp : s.isEmpty = false :=
    isEmpty_false_of_length_pos s (List.length_pos.mpr hs)
  have htemp : (trimJS s).isEmpty = false :=
    isEmpty_false_of_length_pos _ (List.length_pos.mpr hne)
  have hvct : validCharsTest (trimJS s) = true := by
    rw [validCharsTest, htemp, all_trimJS s phoneChar hall]
    rfl
  have hmain : validatePhone s =
      (if (s.filter Char.isDigit).length = 10 then
        ⟨true, some ('+' :: '1' :: s.filter Char.isDigit),
          s.filter Char.isDigit, none⟩
      else if (s.filter Char.isDigit).length = 11
          ∧ (s.filter Char.isDigit).head? = some '1' then
        ⟨true, some ('+' :: s.filter Char.isDigit),
          s.filter Char.isDigit, none⟩
      else
        ⟨true, some ('+' :: s.filter Char.isDigit),
          s.filter Char.isDigit, none⟩) := by
    simp only [validatePhone, hemp, htemp, hvct, Bool.or_self, Bool.not_true,
      Bool.false_eq_true, if_false]
    rw [if_neg (by omega), if_neg (by omega)]
  refine ⟨?_, ?_, ?_, ?_, ?_⟩
  · rw [hmain]
    split_ifs <;> rfl
  · rw [hmain]
    split_ifs <;> rfl
  · intro h10
    rw [hmain, if_pos h10]
  · intro h11
    rw [hmain, if_neg (by omega), if_pos h11]
  · intro h10 h11
    rw [hmain, if_neg h10, if_neg h11]

/-- Concrete witness for C5: a punctuated 10-digit number normalizes to
`+1` plus its digits. -/
theorem validatePhone_valid_witness :
    (validatePhone "(714) 464-8080".toList).isValid = true
    ∧ (validatePhone "(714) 464-8080".toList).error = none
    ∧ (validatePhone "(714) 464-8080".toList).normalized
      = some "+17144648080".toList := by
  obtain ⟨h1, h2, h3, h4, h5⟩ := validatePhone_valid "(714) 464-8080".toList
    (by decide) (by decide) (by decide) (by decide)
  exact ⟨h1, h2, (h3 (by decide)).trans (by decide)⟩
